import Mathlib

/-!
Shallow embedding of the Sentra-Pay risk decision pipeline
(`Backend/app/core/{rules_engine, ml_engine, context_engine, risk_orchestrator}.py`,
thresholds from `Backend/app/config.py`).

Python floats are modelled as exact rationals (`ℚ`); all arithmetic in the
embedded code stays far from binary-float edge cases, and the constants are
short decimals.  Dictionaries with a fixed key set are modelled as structures;
a key that some producer omits is modelled as an `Option` field (absent = `none`,
and `d.get(k, default)` becomes `Option.getD`).  Database and cache reads are
abstracted into explicit parameters holding the values the queries would return.
-/

namespace SentraPay

/-- Risk thresholds from `config.py` (`Settings`): `RISK_THRESHOLD_MODERATE = 0.60`,
`RISK_THRESHOLD_HIGH = 0.80`. -/
def RISK_THRESHOLD_MODERATE : ℚ := 60/100

/-- `RISK_THRESHOLD_HIGH = 0.80` from `config.py`. -/
def RISK_THRESHOLD_HIGH : ℚ := 80/100

/-- The receiver-reputation dictionary (`context_engine.get_receiver_reputation`,
also what `rules_engine.check_blacklist` and `check_amount_anomaly` read).
The `is_new`, `good_history` and `risky_history` keys are optional: the
known-receiver branch of `get_receiver_reputation` does not set `is_new`,
while the unknown-receiver branch sets `is_new := True`; neither branch sets
the history flags. -/
structure ReceiverInfo where
  total_transactions : ℕ
  fraud_count : ℕ
  fraud_ratio : ℚ
  reputation_score : ℚ
  is_new : Option Bool
  good_history : Option Bool
  risky_history : Option Bool
  deriving Repr, DecidableEq

/-- The transaction-statistics dictionary built by
`context_engine.calculate_user_stats`.  `impossible_travel_flag` is an optional
key because consumers read it with `stats.get("impossible_travel_flag", False)`;
the builder itself never writes it (see `calculate_user_stats` below). -/
structure TxnStats where
  avg_amount_30d : ℚ
  max_amount_30d : ℚ
  txn_count_30d : ℕ
  txn_count_1hour : ℕ
  txn_count_5min : ℕ
  failed_txn_count_7d : ℕ
  days_since_last_txn : ℤ
  user_tenure_days : ℤ
  impossible_travel_flag : Option Bool
  deriving Repr, DecidableEq

/-- The slice of the user-profile dictionary the core pipeline reads. -/
structure UserProfile where
  trust_score : ℚ
  risk_tier : String
  known_devices : List String
  deriving Repr, DecidableEq

/-- `context_engine.UserContext`; its constructor replaces a `None`
`receiver_info` by an empty dictionary, which behaves exactly like the absent
case at every read site, so both are modelled as `none`. -/
structure UserContext where
  user_profile : UserProfile
  txn_stats : TxnStats
  receiver_info : Option ReceiverInfo
  deriving Repr, DecidableEq

/-- The transaction-data dictionary (`txn_data`): the keys the core reads,
with the `.get` defaults already applied. -/
structure TxnData where
  amount : ℚ
  receiver : String
  device_id : String
  deriving Repr, DecidableEq

/-- `rules_engine.RuleResult`.  The `rule_breakdown` dictionary is modelled as
four optional entries, one per key the engine may write. -/
structure RuleResult where
  rule_score : ℚ
  flags : List String
  hard_block : Bool
  block_reason : Option String
  breakdown_velocity : Option ℚ
  breakdown_amount : Option ℚ
  breakdown_device : Option ℚ
  breakdown_failed : Option ℚ
  deriving Repr, DecidableEq

/-- `rules_engine.check_velocity`. -/
def check_velocity (txn_count_5min txn_count_1hour : ℕ) (days_since_last : ℤ) : ℚ :=
  let s1 : ℚ := if days_since_last > 7 ∧ txn_count_5min ≥ 3 then 35/100 else 0
  let s2 : ℚ := if txn_count_5min ≥ 5 then 25/100
    else if txn_count_5min ≥ 3 then 15/100 else 0
  let s3 : ℚ := if txn_count_1hour ≥ 15 then 20/100
    else if txn_count_1hour ≥ 10 then 10/100 else 0
  min (s1 + s2 + s3) 1

/-- `rules_engine.check_blacklist`, returning the `is_blacklisted` flag and the
block reason (the f-string texts abstracted to fixed strings). -/
def check_blacklist (receiver_info : Option ReceiverInfo) : Bool × Option String :=
  match receiver_info with
  | none => (false, none)
  | some ri =>
    if ri.fraud_ratio > 70/100 ∧ ri.total_transactions ≥ 10 then
      (true, some "high fraud rate")
    else if ri.fraud_count ≥ 7 ∧ ri.total_transactions ≥ 10 then
      (true, some "high fraud transaction count")
    else (false, none)

/-- The `is_new_receiver` read of `rules_engine.check_amount_anomaly`:
`receiver_info.get("is_new", False) if receiver_info else True`. -/
def is_new_receiver_of (receiver_info : Option ReceiverInfo) : Bool :=
  match receiver_info with
  | some ri => ri.is_new.getD false
  | none => true

/-- `rules_engine.check_amount_anomaly`.  An absent `receiver_info` counts as a
new receiver; a present dictionary is read with `get("is_new", False)`
(see `is_new_receiver_of`). -/
def check_amount_anomaly (amount avg_amount_30d max_amount_30d : ℚ)
    (receiver_info : Option ReceiverInfo) : ℚ :=
  let avg : ℚ := if avg_amount_30d = 0 then 1000 else avg_amount_30d
  let is_new_receiver : Bool := is_new_receiver_of receiver_info
  let amount_to_avg_ratio := amount / avg
  let s1 : ℚ := if is_new_receiver = true ∧ amount > 3 * avg then 30/100 else 0
  let s2 : ℚ := if amount_to_avg_ratio > 5 then 25/100
    else if amount_to_avg_ratio > 3 then 15/100 else 0
  let s3 : ℚ := if max_amount_30d > 0 ∧ amount > max_amount_30d * (3/2) then 10/100 else 0
  min (s1 + s2 + s3) 1

/-- `rules_engine.check_device_change`. -/
def check_device_change (device_id : String) (known_devices : List String) : ℚ :=
  if device_id = "" then 0
  else if device_id ∈ known_devices then 0
  else 15/100

/-- `rules_engine.check_failed_txn_pattern`. -/
def check_failed_txn_pattern (failed_count : ℕ) : ℚ :=
  if failed_count ≥ 5 then 20/100
  else if failed_count ≥ 3 then 10/100
  else 0

/-- `rules_engine.evaluate`: velocity first, then the blacklist check with its
early return, then amount anomaly, device change and failed-transaction
pattern; final score is the capped sum. -/
def evaluate (txn_data : TxnData) (context : UserContext) : RuleResult :=
  let velocity_score := check_velocity context.txn_stats.txn_count_5min
    context.txn_stats.txn_count_1hour context.txn_stats.days_since_last_txn
  let flags1 : List String := if velocity_score > 0 then ["VELOCITY_SPIKE"] else []
  let blacklist_result := check_blacklist context.receiver_info
  if blacklist_result.1 = true then
    { rule_score := 0, flags := flags1, hard_block := true,
      block_reason := blacklist_result.2,
      breakdown_velocity := some velocity_score, breakdown_amount := none,
      breakdown_device := none, breakdown_failed := none }
  else
    let amount_anomaly_score := check_amount_anomaly txn_data.amount
      context.txn_stats.avg_amount_30d context.txn_stats.max_amount_30d
      context.receiver_info
    let flags2 := flags1 ++ (if amount_anomaly_score > 0 then ["NEW_RECEIVER_HIGH_AMOUNT"] else [])
    let device_score := check_device_change txn_data.device_id
      context.user_profile.known_devices
    let flags3 := flags2 ++ (if device_score > 0 then ["DEVICE_CHANGE"] else [])
    let failed_txn_score := check_failed_txn_pattern context.txn_stats.failed_txn_count_7d
    let flags4 := flags3 ++ (if failed_txn_score > 0 then ["HIGH_FAILED_TXN"] else [])
    { rule_score := min (velocity_score + amount_anomaly_score + device_score + failed_txn_score) 1,
      flags := flags4, hard_block := false, block_reason := none,
      breakdown_velocity := some velocity_score,
      breakdown_amount := some amount_anomaly_score,
      breakdown_device := some device_score,
      breakdown_failed := some failed_txn_score }

/-- The feature-map keys `ml_engine.calculate_fallback_score` reads.
`engineer_features` always populates every one of these keys, so they are plain
fields; an arbitrary feature map is an arbitrary inhabitant of this structure. -/
structure Features where
  risky_history_flag : ℚ
  good_history_flag : ℚ
  deviation_from_sender_avg : ℚ
  is_new_receiver : ℚ
  txn_count_1h : ℚ
  velocity_check : ℚ
  device_change_flag : ℚ
  risk_profile : ℚ
  deriving Repr, DecidableEq

/-- `ml_engine.calculate_fallback_score`: the heuristic scoring path, written
with the same running accumulator as the source. -/
def calculate_fallback_score (f : Features) : ℚ :=
  let s0 : ℚ := 0
  let s1 : ℚ := if f.risky_history_flag = 1 then s0 + 35/100
    else if f.good_history_flag = 1 then s0 - 15/100 else s0
  let s2 : ℚ := if f.deviation_from_sender_avg > 10 then s1 + 40/100
    else if f.deviation_from_sender_avg > 5 then s1 + 25/100 else s1
  let s3 : ℚ := if f.is_new_receiver = 1 ∧ f.good_history_flag = 0 then s2 + 15/100 else s2
  let s4 : ℚ := if f.txn_count_1h ≥ 5 ∨ f.velocity_check = 1 then s3 + 25/100 else s3
  let s5 : ℚ := if f.device_change_flag = 1 then s4 + 15/100 else s4
  let s6 : ℚ := if f.risk_profile > 7/10 then s5 + 25/100 else s5
  max 0 (min s6 1)

/-- `context_engine.calculate_user_stats` with its database queries abstracted
into parameters: `user_found` is whether the user row exists,
`amounts_30d` the amounts of the completed transactions of the last 30 days,
the three counts are what the velocity/failed-transaction queries return,
`last_txn_days` the age in days of the most recent transaction (if any), and
`tenure_days` the account age.  Neither return branch of the source writes an
`impossible_travel_flag` key, hence that field is `none` on both branches. -/
def calculate_user_stats (user_found : Bool) (amounts_30d : List ℚ)
    (txn_count_1hour txn_count_5min failed_txn_count_7d : ℕ)
    (last_txn_days : Option ℤ) (tenure_days : ℤ) : TxnStats :=
  if user_found = false then
    { avg_amount_30d := 0, max_amount_30d := 0, txn_count_30d := 0,
      txn_count_1hour := 0, txn_count_5min := 0, failed_txn_count_7d := 0,
      days_since_last_txn := 999, user_tenure_days := 0,
      impossible_travel_flag := none }
  else
    { avg_amount_30d := if amounts_30d = [] then 0 else amounts_30d.sum / amounts_30d.length,
      max_amount_30d := if amounts_30d = [] then 0 else amounts_30d.foldr max 0,
      txn_count_30d := amounts_30d.length,
      txn_count_1hour := txn_count_1hour, txn_count_5min := txn_count_5min,
      failed_txn_count_7d := failed_txn_count_7d,
      days_since_last_txn := last_txn_days.getD 999,
      user_tenure_days := tenure_days,
      impossible_travel_flag := none }

/-- The identity-signal flag set of `RiskOrchestrator.analyze_transaction`
(line 157): `{"IMPOSSIBLE_TRAVEL", "NEW_DEVICE"}`. -/
def identity_flags : List String := ["IMPOSSIBLE_TRAVEL", "NEW_DEVICE"]

/-- The damage-multiplier bands of `RiskOrchestrator._combine_scores`
(lines 266-274), as a function of `ratio = amount / (avg_30d + 1)`. -/
def damage_multiplier_of (ratio : ℚ) : ℚ :=
  if ratio < 3/10 then 25/100
  else if ratio < 1 then 50/100
  else if ratio < 3 then 80/100
  else 1

/-- The `is_new` read of the forgiveness step (`get("is_new", True)` on the
receiver dictionary, the read `_build_response` performs and `_combine_scores`
intends). -/
def is_new_default_true (receiver_info : Option ReceiverInfo) : Bool :=
  match receiver_info with
  | some ri => ri.is_new.getD true
  | none => true

/-- `identity_risk` as computed in `RiskOrchestrator.analyze_transaction`
(line 158): the rule flags intersect the identity flags, or the statistics
carry a truthy `impossible_travel_flag`. -/
def identity_risk (flags : List String) (stats : TxnStats) : Bool :=
  flags.any (fun f => identity_flags.contains f) || stats.impossible_travel_flag.getD false

/-- The slice of `decision_engine`'s action result the decision logic reads and
writes (`action`, `risk_level`, `requires_otp`); the `message` and
`recommendations` fields are regenerated display text no claim inspects. -/
structure ActionResult where
  action : String
  risk_level : String
  requires_otp : Bool
  deriving Repr, DecidableEq

/-- The identity/fraud post-processing block of
`RiskOrchestrator.analyze_transaction` (lines 168-189), applied to the baseline
`action_result` returned by `decision_engine.get_action`. -/
def apply_identity_policy (idr : Bool) (final_score : ℚ)
    (base : ActionResult) : ActionResult :=
  if idr = true ∧ final_score < RISK_THRESHOLD_MODERATE then
    { action := "OTP_REQUIRED", risk_level := "HIGH", requires_otp := true }
  else if final_score ≥ RISK_THRESHOLD_HIGH ∧ idr = false then
    { action := "WARNING", risk_level := "HIGH", requires_otp := false }
  else if idr = true ∧ final_score ≥ RISK_THRESHOLD_HIGH then
    { action := "BLOCK", risk_level := "VERY_HIGH", requires_otp := false }
  else base

/-- `RiskOrchestrator._combine_scores`.  The computation follows the source
line by line; at the forgiveness step (line 284) the source reads
`receiver_history.get("is_new", True)` where `receiver_history` is not defined
anywhere in the module, so Python raises `NameError` there on every call.
The fallible call is modelled as `Except`. -/
def combine_scores (rule_score ml_score : ℚ) (_flags : List String)
    (context : UserContext) (amount : ℚ) : Except String ℚ :=
  let avg_amount := context.txn_stats.avg_amount_30d
  let behavior_score := max ml_score rule_score
  let final_raw : ℚ := 70/100 * behavior_score + 30/100 * rule_score
  let ratio := amount / (avg_amount + 1)
  let damage_multiplier := damage_multiplier_of ratio
  let _final := final_raw * damage_multiplier
  Except.error "NameError: receiver_history is not defined"

/-- The score fusion as `_combine_scores` evidently intends it: the identical
computation with the undefined name `receiver_history` read as
`context.receiver_info` — the dictionary whose `is_new` key every other method
of the orchestrator consults (e.g. `_build_response`, line 388, with the same
`get("is_new", True)` default). -/
def combine_scores_intended (rule_score ml_score : ℚ)
    (context : UserContext) (amount : ℚ) : ℚ :=
  let avg_amount := context.txn_stats.avg_amount_30d
  let behavior_score := max ml_score rule_score
  let final_raw : ℚ := 70/100 * behavior_score + 30/100 * rule_score
  let ratio := amount / (avg_amount + 1)
  let damage_multiplier := damage_multiplier_of ratio
  let final := final_raw * damage_multiplier
  let is_new : Bool := is_new_default_true context.receiver_info
  let final2 : ℚ :=
    if is_new = true ∧ amount ≤ min 250 (5/100 * (avg_amount + 1)) then
      min final (45/100)
    else final
  max 0 (min 1 final2)

/-- The decision-relevant keys of the response dictionary
`RiskOrchestrator.analyze_transaction` returns.  `action` is optional because
`_create_blocked_response` (lines 428-465) builds its dictionary without an
`"action"` key, while `_build_response` sets one. -/
structure RiskResponse where
  risk_score : ℚ
  risk_level : String
  action : Option String
  can_proceed : Bool
  requires_otp : Bool
  deriving Repr, DecidableEq

/-- The decision core of `RiskOrchestrator.analyze_transaction`: rules engine,
hard-block early return via `_create_blocked_response`, score fusion, baseline
action and the identity post-processing, then the response record.  The ML
score and the baseline action result are parameters: `ml_engine.predict` and
`decision_engine.get_action` are external to this computation (the latter is
not part of the sources).  Persistence and display-only fields are omitted. -/
def analyze_transaction (txn_data : TxnData) (context : UserContext)
    (ml_score : ℚ) (base : ActionResult) : Except String RiskResponse :=
  let rule_result := evaluate txn_data context
  if rule_result.hard_block = true then
    Except.ok { risk_score := 1, risk_level := "VERY_HIGH", action := none,
                can_proceed := false, requires_otp := false }
  else
    match combine_scores rule_result.rule_score ml_score rule_result.flags
        context txn_data.amount with
    | Except.error e => Except.error e
    | Except.ok final_score =>
      let idr := identity_risk rule_result.flags context.txn_stats
      let action_result := apply_identity_policy idr final_score base
      Except.ok { risk_score := final_score,
                  risk_level := action_result.risk_level,
                  action := some action_result.action,
                  can_proceed := decide (action_result.action = "ALLOW" ∨ action_result.action = "WARNING"),
                  requires_otp := action_result.requires_otp }

/-! ## Helper lemmas -/

/-- Clamping into `[0,1]` (as `max 0 (min 1 x)`) is bounded below. -/
lemma clamp_nonneg (x : ℚ) : 0 ≤ max 0 (min 1 x) := le_max_left 0 _

/-- Clamping into `[0,1]` (as `max 0 (min 1 x)`) is bounded above. -/
lemma clamp_le_one (x : ℚ) : max 0 (min 1 x) ≤ 1 :=
  max_le (by norm_num) (min_le_left 1 x)

/-- Clamping with the operands in the other order (`max 0 (min x 1)`),
as written in `calculate_fallback_score`. -/
lemma clamp_le_one_swap (x : ℚ) : max 0 (min x 1) ≤ 1 :=
  max_le (by norm_num) (min_le_right x 1)

/-- The damage multiplier of the score fusion is non-negative for every
amount/average ratio. -/
lemma damage_multiplier_nonneg (ratio : ℚ) : 0 ≤ damage_multiplier_of ratio := by
  unfold damage_multiplier_of
  split_ifs <;> norm_num

/-- The intended fusion is always clamped into `[0,1]`. -/
lemma combine_scores_intended_mem_unit (rule_score ml_score : ℚ)
    (context : UserContext) (amount : ℚ) :
    0 ≤ combine_scores_intended rule_score ml_score context amount ∧
      combine_scores_intended rule_score ml_score context amount ≤ 1 := by
  unfold combine_scores_intended
  exact ⟨clamp_nonneg _, clamp_le_one _⟩

/-- The intended fusion is monotonically non-decreasing in both scores:
the blended raw score is monotone in each argument, the damage multiplier and
the forgiveness condition do not depend on the scores, and clamping is
monotone. -/
lemma combine_scores_intended_monotone (r r₂ m m₂ : ℚ)
    (context : UserContext) (amount : ℚ) (hr : r ≤ r₂) (hm : m ≤ m₂) :
    combine_scores_intended r m context amount ≤
      combine_scores_intended r₂ m₂ context amount := by
  simp only [combine_scores_intended]
  have hb : max m r ≤ max m₂ r₂ := max_le_max hm hr
  have hraw : (70:ℚ)/100 * max m r + 30/100 * r ≤ 70/100 * max m₂ r₂ + 30/100 * r₂ := by
    have h1 : (70:ℚ)/100 * max m r ≤ 70/100 * max m₂ r₂ := by
      apply mul_le_mul_of_nonneg_left hb; norm_num
    have h2 : (30:ℚ)/100 * r ≤ 30/100 * r₂ := by
      apply mul_le_mul_of_nonneg_left hr; norm_num
    linarith
  have hdm := damage_multiplier_nonneg (amount / (context.txn_stats.avg_amount_30d + 1))
  have hmul := mul_le_mul_of_nonneg_right hraw hdm
  split_ifs with hforg
  · exact max_le_max le_rfl (min_le_min le_rfl (min_le_min hmul le_rfl))
  · exact max_le_max le_rfl (min_le_min le_rfl hmul)

/-! ## Claims about the score fuser (`_combine_scores`) -/

/-- Claim C2: the spec says the fused score always lies in `[0,1]`, but
`_combine_scores` never returns a score at all: line 284 reads the undefined
name `receiver_history`, so every call raises `NameError`.  The intended
computation (the same function with `receiver_history` read as
`context.receiver_info`) is indeed clamped into `[0,1]`. -/
theorem combine_scores_always_name_error :
    (∀ (rule_score ml_score : ℚ) (flags : List String) (context : UserContext)
      (amount : ℚ),
      combine_scores rule_score ml_score flags context amount =
        Except.error "NameError: receiver_history is not defined") ∧
    (∀ (rule_score ml_score : ℚ) (context : UserContext) (amount : ℚ),
      0 ≤ combine_scores_intended rule_score ml_score context amount ∧
        combine_scores_intended rule_score ml_score context amount ≤ 1) :=
  ⟨fun _ _ _ _ _ => rfl, fun r m c a => combine_scores_intended_mem_unit r m c a⟩

/-- The transaction statistics of the claimed forgiveness scenario:
a 30-day average of 50000. -/
def statsC3 : TxnStats :=
  { avg_amount_30d := 50000, max_amount_30d := 60000, txn_count_30d := 10,
    txn_count_1hour := 0, txn_count_5min := 0, failed_txn_count_7d := 0,
    days_since_last_txn := 5, user_tenure_days := 100,
    impossible_travel_flag := none }

/-- A first-time payee (the unknown-receiver reputation dictionary of
`get_receiver_reputation`, which sets `is_new := True`). -/
def newPayeeC3 : ReceiverInfo :=
  { total_transactions := 0, fraud_count := 0, fraud_ratio := 0,
    reputation_score := 1/2, is_new := some true, good_history := none,
    risky_history := none }

/-- Claim C3: the spec says a first-time payee with a small amount
(`amount ≤ min(250, 5%·(avg_30d+1))`, in particular amount 100 against a
50000 average) gets the fused score capped at 0.45 — but `_combine_scores`
raises `NameError` on the undefined `receiver_history` at precisely that
forgiveness step, for every rule/model score.  The intended computation does
cap the score at 0.45 in this scenario. -/
theorem forgiveness_path_name_error :
    (∀ (rule_score ml_score : ℚ) (flags : List String) (profile : UserProfile),
      combine_scores rule_score ml_score flags
        ⟨profile, statsC3, some newPayeeC3⟩ 100 =
        Except.error "NameError: receiver_history is not defined") ∧
    (∀ (rule_score ml_score : ℚ) (profile : UserProfile),
      combine_scores_intended rule_score ml_score
        ⟨profile, statsC3, some newPayeeC3⟩ 100 ≤ 45/100) := by
  constructor
  · intro _ _ _ _; rfl
  · intro rule_score ml_score profile
    simp only [combine_scores_intended, is_new_default_true, statsC3, newPayeeC3,
      Option.getD]
    rw [if_pos]
    · exact max_le (by norm_num)
        (le_trans (min_le_right _ _) (min_le_right _ _))
    · exact ⟨trivial, by norm_num [min_def]⟩

/-- A plain user context for exercising the fuser: 1000 average, no payee
record. -/
def ctxC6 : UserContext :=
  { user_profile := { trust_score := 50, risk_tier := "BRONZE", known_devices := [] },
    txn_stats :=
      { avg_amount_30d := 1000, max_amount_30d := 2000, txn_count_30d := 4,
        txn_count_1hour := 0, txn_count_5min := 0, failed_txn_count_7d := 0,
        days_since_last_txn := 3, user_tenure_days := 200,
        impossible_travel_flag := none },
    receiver_info := none }

/-- Claim C6: the spec claims monotonicity of the fused score in `rule_score`
and `model_score`, but `_combine_scores` never produces a fused score to
compare — both a low-score and a high-score call raise the same `NameError`.
The intended computation is indeed monotonically non-decreasing in both
scores at fixed remaining inputs. -/
theorem monotonicity_inputs_name_error :
    (combine_scores (20/100) (10/100) [] ctxC6 500 =
      Except.error "NameError: receiver_history is not defined") ∧
    (combine_scores (90/100) (10/100) [] ctxC6 500 =
      Except.error "NameError: receiver_history is not defined") ∧
    (∀ (context : UserContext) (amount r r₂ m m₂ : ℚ), r ≤ r₂ → m ≤ m₂ →
      combine_scores_intended r m context amount ≤
        combine_scores_intended r₂ m₂ context amount) :=
  ⟨rfl, rfl, fun context amount r r₂ m m₂ hr hm =>
    combine_scores_intended_monotone r r₂ m m₂ context amount hr hm⟩

/-- Witness for the monotonicity half of the C6 theorem at concrete scores. -/
theorem monotonicity_inputs_name_error_witness :
    combine_scores_intended (20/100) (10/100) ctxC6 500 ≤
      combine_scores_intended (90/100) (60/100) ctxC6 500 :=
  monotonicity_inputs_name_error.2.2 ctxC6 500 (20/100) (90/100) (10/100)
    (60/100) (by norm_num) (by norm_num)

/-! ## Claims about the action resolver -/

/-- Claim C4: the identity/fraud post-processing applies its overrides exactly
as specified — identity risk with a score below the moderate threshold forces
OTP_REQUIRED at risk level HIGH; a score at or above the high threshold
without identity risk forces WARNING at HIGH; identity risk with a score at or
above the high threshold forces BLOCK at VERY_HIGH; otherwise the baseline
decision is kept unchanged. -/
theorem identity_policy_overrides (idr : Bool) (final_score : ℚ)
    (base : ActionResult) :
    (idr = true → final_score < RISK_THRESHOLD_MODERATE →
      apply_identity_policy idr final_score base =
        { action := "OTP_REQUIRED", risk_level := "HIGH", requires_otp := true }) ∧
    (final_score ≥ RISK_THRESHOLD_HIGH → idr = false →
      apply_identity_policy idr final_score base =
        { action := "WARNING", risk_level := "HIGH", requires_otp := false }) ∧
    (idr = true → final_score ≥ RISK_THRESHOLD_HIGH →
      apply_identity_policy idr final_score base =
        { action := "BLOCK", risk_level := "VERY_HIGH", requires_otp := false }) ∧
    (¬(idr = true ∧ final_score < RISK_THRESHOLD_MODERATE) →
      final_score < RISK_THRESHOLD_HIGH →
      apply_identity_policy idr final_score base = base) := by
  unfold apply_identity_policy
  refine ⟨?_, ?_, ?_, ?_⟩ <;> intro h1 h2 <;> split_ifs <;>
    simp_all [RISK_THRESHOLD_MODERATE, RISK_THRESHOLD_HIGH] <;> linarith

/-- Witness for C4: all four override cases at concrete scores, with baseline
action ALLOW/LOW. -/
theorem identity_policy_overrides_witness :
    apply_identity_policy true (40/100) ⟨"ALLOW", "LOW", false⟩ =
      { action := "OTP_REQUIRED", risk_level := "HIGH", requires_otp := true } ∧
    apply_identity_policy false (85/100) ⟨"ALLOW", "LOW", false⟩ =
      { action := "WARNING", risk_level := "HIGH", requires_otp := false } ∧
    apply_identity_policy true (85/100) ⟨"ALLOW", "LOW", false⟩ =
      { action := "BLOCK", risk_level := "VERY_HIGH", requires_otp := false } ∧
    apply_identity_policy false (50/100) ⟨"ALLOW", "LOW", false⟩ =
      ⟨"ALLOW", "LOW", false⟩ :=
  ⟨(identity_policy_overrides true (40/100) _).1 rfl
      (by norm_num [RISK_THRESHOLD_MODERATE]),
   (identity_policy_overrides false (85/100) _).2.1
      (by norm_num [RISK_THRESHOLD_HIGH]) rfl,
   (identity_policy_overrides true (85/100) _).2.2.1 rfl
      (by norm_num [RISK_THRESHOLD_HIGH]),
   (identity_policy_overrides false (50/100) _).2.2.2
      (by simp) (by norm_num [RISK_THRESHOLD_HIGH])⟩

/-- The four flags the rules engine can emit. -/
def allowed_rule_flags : List String :=
  ["VELOCITY_SPIKE", "NEW_RECEIVER_HIGH_AMOUNT", "DEVICE_CHANGE", "HIGH_FAILED_TXN"]

/-- Every flag of a rule evaluation is one of the four rule-engine flags. -/
lemma evaluate_flags_subset (txn_data : TxnData) (context : UserContext) :
    ∀ f ∈ (evaluate txn_data context).flags, f ∈ allowed_rule_flags := by
  intro f hf
  simp only [evaluate] at hf
  split_ifs at hf <;> simp_all [allowed_rule_flags] <;> tauto

/-- Neither branch of the statistics builder writes `impossible_travel_flag`. -/
lemma calculate_user_stats_no_impossible_travel (user_found : Bool)
    (amounts_30d : List ℚ) (c1h c5m f7 : ℕ) (last_txn_days : Option ℤ)
    (tenure_days : ℤ) :
    (calculate_user_stats user_found amounts_30d c1h c5m f7 last_txn_days
      tenure_days).impossible_travel_flag = none := by
  unfold calculate_user_stats
  split_ifs <;> rfl

/-- `identity_risk` is false whenever the flags are rule-engine flags and the
statistics carry no impossible-travel key. -/
lemma identity_risk_false_of_subset (flags : List String) (stats : TxnStats)
    (hsub : ∀ f ∈ flags, f ∈ allowed_rule_flags)
    (himp : stats.impossible_travel_flag = none) :
    identity_risk flags stats = false := by
  unfold identity_risk
  rw [himp]
  simp only [Option.getD_none, Bool.or_false, List.any_eq_false]
  intro f hf
  have hmem := hsub f hf
  simp only [allowed_rule_flags, List.mem_cons, List.mem_singleton] at hmem
  rcases hmem with rfl | rfl | rfl | rfl | hmem
  · decide
  · decide
  · decide
  · decide
  · simp at hmem

/-- Claim C5: with context statistics from the statistics builder, every rule
evaluation emits only the four rule-engine flags (never `NEW_DEVICE` or
`IMPOSSIBLE_TRAVEL`), `identity_risk` is false, the identity post-processing
reduces to the WARNING override for high scores and the unchanged baseline
otherwise (so the OTP_REQUIRED override and the identity-based BLOCK override
are unreachable), and step-up authentication is never newly required. -/
theorem core_pipeline_identity_risk_false (txn_data : TxnData)
    (profile : UserProfile) (receiver_info : Option ReceiverInfo)
    (user_found : Bool) (amounts_30d : List ℚ) (c1h c5m f7 : ℕ)
    (last_txn_days : Option ℤ) (tenure_days : ℤ) (score : ℚ)
    (base : ActionResult) :
    let stats := calculate_user_stats user_found amounts_30d c1h c5m f7
      last_txn_days tenure_days
    let context : UserContext := ⟨profile, stats, receiver_info⟩
    let flags := (evaluate txn_data context).flags
    (∀ f ∈ flags, f ∈ allowed_rule_flags) ∧
    identity_risk flags stats = false ∧
    apply_identity_policy (identity_risk flags stats) score base =
      (if score ≥ RISK_THRESHOLD_HIGH then
        { action := "WARNING", risk_level := "HIGH", requires_otp := false }
      else base) ∧
    ((apply_identity_policy (identity_risk flags stats) score base).requires_otp =
        true → base.requires_otp = true) := by
  intro stats context flags
  have hsub := evaluate_flags_subset txn_data context
  have hid : identity_risk flags stats = false :=
    identity_risk_false_of_subset flags stats hsub
      (calculate_user_stats_no_impossible_travel user_found amounts_30d c1h
        c5m f7 last_txn_days tenure_days)
  have hpol : apply_identity_policy (identity_risk flags stats) score base =
      (if score ≥ RISK_THRESHOLD_HIGH then
        { action := "WARNING", risk_level := "HIGH", requires_otp := false }
      else base) := by
    rw [hid]
    unfold apply_identity_policy
    split_ifs <;> simp_all
  refine ⟨hsub, hid, hpol, ?_⟩
  intro hotp
  rw [hpol] at hotp
  split_ifs at hotp
  exact hotp

/-- Statistics of the C5 witness run: user row found, no history. -/
def statsC5 : TxnStats := calculate_user_stats true [] 0 0 0 none 0

/-- Profile of the C5 witness run: no known devices. -/
def profileC5 : UserProfile := { trust_score := 50, risk_tier := "BRONZE", known_devices := [] }

/-- Transaction of the C5 witness run: unknown device `D1`. -/
def txnC5 : TxnData := { amount := 100, receiver := "shop", device_id := "D1" }

/-- Baseline action of the C5 witness run, with step-up already required. -/
def baseC5 : ActionResult := { action := "OTP_REQUIRED", risk_level := "MODERATE", requires_otp := true }

/-- Witness for C5: a run whose only flag is DEVICE_CHANGE; the flag is one of
the four, identity risk is false, and the kept baseline is the only source of
a step-up requirement. -/
theorem core_pipeline_identity_risk_false_witness :
    "DEVICE_CHANGE" ∈ allowed_rule_flags ∧
    identity_risk (evaluate txnC5 ⟨profileC5, statsC5, none⟩).flags statsC5 = false ∧
    baseC5.requires_otp = true := by
  have h := core_pipeline_identity_risk_false txnC5 profileC5 none true [] 0 0 0
    none 0 (1/2) baseC5
  have hflags : (evaluate txnC5 ⟨profileC5, statsC5, none⟩).flags = ["DEVICE_CHANGE"] := by
    have hv : check_velocity statsC5.txn_count_5min statsC5.txn_count_1hour
        statsC5.days_since_last_txn = 0 := by
      norm_num [check_velocity, statsC5, calculate_user_stats]
    have ha : check_amount_anomaly txnC5.amount statsC5.avg_amount_30d
        statsC5.max_amount_30d none = 0 := by
      norm_num [check_amount_anomaly, is_new_receiver_of, txnC5, statsC5,
        calculate_user_stats]
    have hd : check_device_change txnC5.device_id profileC5.known_devices = 15/100 := rfl
    have hf : check_failed_txn_pattern statsC5.failed_txn_count_7d = 0 := rfl
    have hb : check_blacklist none = (false, none) := rfl
    norm_num [evaluate, hv, ha, hd, hf, hb]
  refine ⟨h.1 "DEVICE_CHANGE" ?_, h.2.1, h.2.2.2 ?_⟩
  · show "DEVICE_CHANGE" ∈ (evaluate txnC5 ⟨profileC5, statsC5, none⟩).flags
    rw [hflags]
    exact List.mem_singleton.mpr rfl
  · show (apply_identity_policy _ _ _).requires_otp = true
    rw [h.2.2.1]
    norm_num [RISK_THRESHOLD_HIGH, baseC5]

/-! ## Claims about the pipeline coordinator -/

/-- A rule evaluation hard-blocks exactly when the blacklist check fires. -/
lemma evaluate_hard_block_of (txn_data : TxnData) (context : UserContext)
    (hb : (check_blacklist context.receiver_info).1 = true) :
    (evaluate txn_data context).hard_block = true := by
  simp only [evaluate]
  rw [if_pos hb]

/-- Claim C1: a payee reputation meeting the blacklist condition
(fraud_ratio > 0.70 with ≥ 10 total transactions, or fraud_count ≥ 7 with
≥ 10 total transactions) makes the pipeline terminate immediately with risk
score exactly 1 and risk level VERY_HIGH, regardless of the transaction, the
statistics, the model score or the baseline action — but the blocked response
dictionary carries no `action` key at all (`action = none`), where the claim
expects action BLOCK. -/
theorem blacklisted_payee_blocked_without_action_key (txn_data : TxnData)
    (profile : UserProfile) (stats : TxnStats) (ri : ReceiverInfo)
    (ml_score : ℚ) (base : ActionResult)
    (h : (ri.fraud_ratio > 70/100 ∧ ri.total_transactions ≥ 10) ∨
      (ri.fraud_count ≥ 7 ∧ ri.total_transactions ≥ 10)) :
    analyze_transaction txn_data ⟨profile, stats, some ri⟩ ml_score base =
      Except.ok { risk_score := 1, risk_level := "VERY_HIGH", action := none,
                  can_proceed := false, requires_otp := false } := by
  have hb : (check_blacklist (some ri)).1 = true := by
    simp only [check_blacklist]
    split_ifs with hA hB
    · rfl
    · rfl
    · rcases h with ⟨h1, h2⟩ | ⟨h1, h2⟩
      · exact absurd ⟨h1, h2⟩ hA
      · exact absurd ⟨h1, h2⟩ hB
  have hhb : (evaluate txn_data ⟨profile, stats, some ri⟩).hard_block = true :=
    evaluate_hard_block_of txn_data ⟨profile, stats, some ri⟩ hb
  simp only [analyze_transaction]
  rw [if_pos hhb]

/-- Witness for C1: the spec scenario — payee with fraud_ratio 0.8 over 20
transactions — is blocked with score 1 and level VERY_HIGH, and no action
field. -/
theorem blacklisted_payee_blocked_witness :
    analyze_transaction ⟨999999, "fraudster", "DX"⟩
      ⟨⟨50, "BRONZE", []⟩,
       ⟨1000, 2000, 4, 0, 0, 0, 3, 200, none⟩,
       some ⟨20, 16, 8/10, 8/10, some false, none, none⟩⟩ (1/10)
      ⟨"ALLOW", "LOW", false⟩ =
      Except.ok { risk_score := 1, risk_level := "VERY_HIGH", action := none,
                  can_proceed := false, requires_otp := false } :=
  blacklisted_payee_blocked_without_action_key _ _ _ _ _ _
    (Or.inl ⟨by norm_num, by norm_num⟩)

/-! ## Claims about rule-check ordering -/

/-- Payee reputation of the C7 run: blacklisted (fraud ratio 0.8 over 20). -/
def riC7 : ReceiverInfo :=
  { total_transactions := 20, fraud_count := 16, fraud_ratio := 8/10,
    reputation_score := 8/10, is_new := some false, good_history := none,
    risky_history := none }

/-- Context of the C7 run: 5 transactions in the last 5 minutes (velocity
spike) and a blacklisted payee. -/
def ctxC7 : UserContext :=
  { user_profile := { trust_score := 50, risk_tier := "BRONZE", known_devices := ["D0"] },
    txn_stats :=
      { avg_amount_30d := 1000, max_amount_30d := 2000, txn_count_30d := 10,
        txn_count_1hour := 5, txn_count_5min := 5, failed_txn_count_7d := 0,
        days_since_last_txn := 0, user_tenure_days := 300,
        impossible_travel_flag := none },
    receiver_info := some riC7 }

/-- Counterexample to claim C7: the velocity check runs before the blacklist
check, so a hard-blocked evaluation can still carry the VELOCITY_SPIKE flag —
the returned RuleOutcome is not flag-free. -/
theorem hard_block_keeps_velocity_flag :
    (evaluate ⟨100, "evil", "D0"⟩ ctxC7).hard_block = true ∧
    "VELOCITY_SPIKE" ∈ (evaluate ⟨100, "evil", "D0"⟩ ctxC7).flags := by
  have hv : check_velocity ctxC7.txn_stats.txn_count_5min
      ctxC7.txn_stats.txn_count_1hour ctxC7.txn_stats.days_since_last_txn =
      25/100 := by
    norm_num [check_velocity, ctxC7, min_def]
  have hb : check_blacklist ctxC7.receiver_info = (true, some "high fraud rate") := by
    norm_num [check_blacklist, ctxC7, riC7]
  constructor
  · simp only [evaluate, hb]
    norm_num
  · simp only [evaluate, hb, hv]
    norm_num

/-- Claim C7 (amended): when the blacklist condition holds, evaluation stops
before the amount-anomaly, device-change and failed-transaction checks — the
outcome has rule score 0, carries none of their flags or breakdown entries —
but the velocity check has already run, so its breakdown entry is present and
the VELOCITY_SPIKE flag may be. -/
theorem hard_block_skips_later_checks (txn_data : TxnData)
    (context : UserContext)
    (hbl : (check_blacklist context.receiver_info).1 = true) :
    evaluate txn_data context =
      { rule_score := 0,
        flags := if check_velocity context.txn_stats.txn_count_5min
            context.txn_stats.txn_count_1hour
            context.txn_stats.days_since_last_txn > 0 then
            ["VELOCITY_SPIKE"] else [],
        hard_block := true,
        block_reason := (check_blacklist context.receiver_info).2,
        breakdown_velocity := some (check_velocity
          context.txn_stats.txn_count_5min context.txn_stats.txn_count_1hour
          context.txn_stats.days_since_last_txn),
        breakdown_amount := none, breakdown_device := none,
        breakdown_failed := none } := by
  simp only [evaluate]
  rw [if_pos hbl]

/-- Witness for the amended C7: the blocked evaluation of the velocity-spiking
run in full — score 0, velocity flag kept, later checks absent. -/
theorem hard_block_skips_later_checks_witness :
    evaluate ⟨100, "evil", "D0"⟩ ctxC7 =
      { rule_score := 0, flags := ["VELOCITY_SPIKE"], hard_block := true,
        block_reason := some "high fraud rate",
        breakdown_velocity := some (25/100), breakdown_amount := none,
        breakdown_device := none, breakdown_failed := none } := by
  have h := hard_block_skips_later_checks ⟨100, "evil", "D0"⟩ ctxC7
    (by norm_num [check_blacklist, ctxC7, riC7])
  rw [h]
  norm_num [check_velocity, check_blacklist, ctxC7, riC7, min_def]

/-! ## Claims about the individual rule checks -/

/-- In a non-blocked evaluation the flag list is the concatenation of the four
per-check flag fragments. -/
lemma evaluate_flags_no_hard_block (txn_data : TxnData) (context : UserContext)
    (hbl : ¬((check_blacklist context.receiver_info).1 = true)) :
    (evaluate txn_data context).flags =
      (if check_velocity context.txn_stats.txn_count_5min
          context.txn_stats.txn_count_1hour
          context.txn_stats.days_since_last_txn > 0 then
        ["VELOCITY_SPIKE"] else []) ++
      (if check_amount_anomaly txn_data.amount context.txn_stats.avg_amount_30d
          context.txn_stats.max_amount_30d context.receiver_info > 0 then
        ["NEW_RECEIVER_HIGH_AMOUNT"] else []) ++
      (if check_device_change txn_data.device_id
          context.user_profile.known_devices > 0 then
        ["DEVICE_CHANGE"] else []) ++
      (if check_failed_txn_pattern context.txn_stats.failed_txn_count_7d > 0 then
        ["HIGH_FAILED_TXN"] else []) := by
  simp only [evaluate]
  rw [if_neg hbl]

/-- Payee record of the C8 run: a known receiver whose dictionary has no
`is_new` key, as `get_receiver_reputation` builds it. -/
def riC8 : ReceiverInfo :=
  { total_transactions := 5, fraud_count := 0, fraud_ratio := 0,
    reputation_score := 0, is_new := none, good_history := none,
    risky_history := none }

/-- Context of the C8 run: 1000 average, 10000 maximum, known device D1. -/
def ctxC8 : UserContext :=
  { user_profile := { trust_score := 50, risk_tier := "BRONZE", known_devices := ["D1"] },
    txn_stats :=
      { avg_amount_30d := 1000, max_amount_30d := 10000, txn_count_30d := 10,
        txn_count_1hour := 0, txn_count_5min := 0, failed_txn_count_7d := 0,
        days_since_last_txn := 3, user_tenure_days := 300,
        impossible_travel_flag := none },
    receiver_info := some riC8 }

/-- Counterexample to claim C8: the flag NEW_RECEIVER_HIGH_AMOUNT is raised
for a payee who is not new (amount 6000 at a 1000 average trips the
ratio-over-5 tier, score 0.25, and any positive amount-anomaly score raises
the flag), so the flag is not raised precisely when the payee is new with
amount above three times the average. -/
theorem amount_flag_without_new_payee :
    "NEW_RECEIVER_HIGH_AMOUNT" ∈ (evaluate ⟨6000, "shop", "D1"⟩ ctxC8).flags ∧
    is_new_receiver_of ctxC8.receiver_info = false ∧
    check_amount_anomaly 6000 ctxC8.txn_stats.avg_amount_30d
      ctxC8.txn_stats.max_amount_30d ctxC8.receiver_info = 25/100 := by
  have ha : check_amount_anomaly 6000 ctxC8.txn_stats.avg_amount_30d
      ctxC8.txn_stats.max_amount_30d ctxC8.receiver_info = 25/100 := by
    norm_num [check_amount_anomaly, is_new_receiver_of, ctxC8, riC8, min_def]
  refine ⟨?_, by norm_num [is_new_receiver_of, ctxC8, riC8], ha⟩
  rw [evaluate_flags_no_hard_block _ _ (by norm_num [check_blacklist, ctxC8, riC8])]
  rw [ha]
  have hv : check_velocity ctxC8.txn_stats.txn_count_5min
      ctxC8.txn_stats.txn_count_1hour ctxC8.txn_stats.days_since_last_txn = 0 := by
    norm_num [check_velocity, ctxC8, min_def]
  have hd : check_device_change (⟨6000, "shop", "D1"⟩ : TxnData).device_id
      ctxC8.user_profile.known_devices = 0 := rfl
  have hf : check_failed_txn_pattern ctxC8.txn_stats.failed_txn_count_7d = 0 := rfl
  rw [hv, hd, hf]
  norm_num

/-- A non-blacklisted evaluation does not hard-block. -/
lemma evaluate_hard_block_false (txn_data : TxnData) (context : UserContext)
    (hbl : ¬((check_blacklist context.receiver_info).1 = true)) :
    (evaluate txn_data context).hard_block = false := by
  simp only [evaluate]
  rw [if_neg hbl]

/-- Claim C8 (amended): the amount-anomaly score is the exact sum of +0.30 for
a new payee with amount above three times the (defaulted) 30-day average,
+0.25 for ratio above 5 (else +0.15 above 3), and +0.10 when the 30-day
maximum is positive and the amount exceeds 1.5 times it, with the average
defaulting to 1000 when it is zero; and in a non-blocked evaluation the
NEW_RECEIVER_HIGH_AMOUNT flag is raised whenever that total is positive, not
only for new payees. -/
theorem amount_anomaly_characterization :
    (∀ (amount avg_amount_30d max_amount_30d : ℚ)
      (receiver_info : Option ReceiverInfo),
      check_amount_anomaly amount avg_amount_30d max_amount_30d receiver_info =
        (if is_new_receiver_of receiver_info = true ∧
            amount > 3 * (if avg_amount_30d = 0 then 1000 else avg_amount_30d)
          then 30/100 else 0) +
        (if amount / (if avg_amount_30d = 0 then 1000 else avg_amount_30d) > 5
          then 25/100
          else if amount / (if avg_amount_30d = 0 then 1000 else avg_amount_30d) > 3
          then 15/100 else 0) +
        (if max_amount_30d > 0 ∧ amount > max_amount_30d * (3/2)
          then 10/100 else 0)) ∧
    (∀ (txn_data : TxnData) (context : UserContext),
      (evaluate txn_data context).hard_block = false →
      ("NEW_RECEIVER_HIGH_AMOUNT" ∈ (evaluate txn_data context).flags ↔
        0 < check_amount_anomaly txn_data.amount
          context.txn_stats.avg_amount_30d context.txn_stats.max_amount_30d
          context.receiver_info)) := by
  constructor
  · intro amount avg_amount_30d max_amount_30d receiver_info
    simp only [check_amount_anomaly]
    split_ifs <;> norm_num [min_def]
  · intro txn_data context h
    by_cases hbl : (check_blacklist context.receiver_info).1 = true
    · rw [evaluate_hard_block_of txn_data context hbl] at h
      simp at h
    · rw [evaluate_flags_no_hard_block txn_data context hbl]
      split_ifs <;> simp_all

/-- Witness for the amended C8: the 6000-at-average-1000 run — score 0.25 from
the ratio tier alone, and the flag present because the total is positive. -/
theorem amount_anomaly_characterization_witness :
    check_amount_anomaly 6000 1000 10000 (some riC8) = 25/100 ∧
    ("NEW_RECEIVER_HIGH_AMOUNT" ∈ (evaluate ⟨6000, "shop", "D1"⟩ ctxC8).flags ↔
      0 < check_amount_anomaly 6000 1000 10000 (some riC8)) := by
  constructor
  · rw [amount_anomaly_characterization.1 6000 1000 10000 (some riC8)]
    norm_num [is_new_receiver_of, riC8]
  · exact amount_anomaly_characterization.2 ⟨6000, "shop", "D1"⟩ ctxC8
      (evaluate_hard_block_false _ _ (by norm_num [check_blacklist, ctxC8, riC8]))

/-- Claim C9: the velocity score is the exact sum of +0.35 for a dormant burst
(idle more than 7 days, at least 3 transactions in 5 minutes), +0.25 for at
least 5 in 5 minutes (else +0.15 for at least 3), and +0.20 for at least 15 in
an hour (else +0.10 for at least 10); the VELOCITY_SPIKE flag is raised
exactly when the score is positive; and a user idle 10 days with 4
transactions in 5 minutes scores at least 0.50. -/
theorem velocity_score_characterization :
    (∀ (txn_count_5min txn_count_1hour : ℕ) (days_since_last : ℤ),
      check_velocity txn_count_5min txn_count_1hour days_since_last =
        (if days_since_last > 7 ∧ txn_count_5min ≥ 3 then 35/100 else 0) +
        (if txn_count_5min ≥ 5 then 25/100
          else if txn_count_5min ≥ 3 then 15/100 else 0) +
        (if txn_count_1hour ≥ 15 then 20/100
          else if txn_count_1hour ≥ 10 then 10/100 else 0)) ∧
    (∀ (txn_data : TxnData) (context : UserContext),
      "VELOCITY_SPIKE" ∈ (evaluate txn_data context).flags ↔
        0 < check_velocity context.txn_stats.txn_count_5min
          context.txn_stats.txn_count_1hour
          context.txn_stats.days_since_last_txn) ∧
    (∀ txn_count_1hour : ℕ,
      check_velocity 4 txn_count_1hour 10 ≥ 50/100 ∧
      0 < check_velocity 4 txn_count_1hour 10) := by
  refine ⟨?_, ?_, ?_⟩
  · intro txn_count_5min txn_count_1hour days_since_last
    simp only [check_velocity]
    split_ifs <;> norm_num [min_def]
  · intro txn_data context
    by_cases hbl : (check_blacklist context.receiver_info).1 = true
    · simp only [evaluate]
      rw [if_pos hbl]
      split_ifs <;> simp_all
    · rw [evaluate_flags_no_hard_block txn_data context hbl]
      split_ifs <;> simp_all
  · intro txn_count_1hour
    simp only [check_velocity]
    split_ifs <;> norm_num [min_def] <;> omega

/-! ## Claim about the heuristic fallback scorer -/

/-- The history weight of the heuristic fallback: +0.35 for risky history,
else −0.15 for good history. -/
def history_weight (f : Features) : ℚ :=
  if f.risky_history_flag = 1 then 35/100
  else if f.good_history_flag = 1 then -(15/100) else 0

/-- The deviation weight: +0.40 above 10, +0.25 above 5. -/
def deviation_weight (f : Features) : ℚ :=
  if f.deviation_from_sender_avg > 10 then 40/100
  else if f.deviation_from_sender_avg > 5 then 25/100 else 0

/-- The new-payee-without-good-history weight: +0.15. -/
def new_payee_weight (f : Features) : ℚ :=
  if f.is_new_receiver = 1 ∧ f.good_history_flag = 0 then 15/100 else 0

/-- The high-velocity weight: +0.25 for hourly count at least 5 or the
velocity-check feature set. -/
def velocity_weight (f : Features) : ℚ :=
  if f.txn_count_1h ≥ 5 ∨ f.velocity_check = 1 then 25/100 else 0

/-- The device-change weight: +0.15. -/
def device_weight (f : Features) : ℚ :=
  if f.device_change_flag = 1 then 15/100 else 0

/-- The risk-profile weight: +0.25 above 0.7. -/
def risk_profile_weight (f : Features) : ℚ :=
  if f.risk_profile > 7/10 then 25/100 else 0

set_option maxHeartbeats 4000000 in
/-- Claim C10: for every feature map the heuristic fallback score is the sum
of the seven condition weights clamped into `[0,1]`, and therefore always lies
in `[0,1]`. -/
theorem fallback_score_additive_clamped (f : Features) :
    calculate_fallback_score f =
      max 0 (min (history_weight f + deviation_weight f + new_payee_weight f +
        velocity_weight f + device_weight f + risk_profile_weight f) 1) ∧
    0 ≤ calculate_fallback_score f ∧ calculate_fallback_score f ≤ 1 := by
  have heq : calculate_fallback_score f =
      max 0 (min (history_weight f + deviation_weight f + new_payee_weight f +
        velocity_weight f + device_weight f + risk_profile_weight f) 1) := by
    simp only [calculate_fallback_score, history_weight, deviation_weight,
      new_payee_weight, velocity_weight, device_weight, risk_profile_weight]
    split_ifs <;> norm_num
  refine ⟨heq, ?_, ?_⟩
  · rw [heq]; exact le_max_left 0 _
  · rw [heq]; exact clamp_le_one_swap _

end SentraPay
